import Mathlib

/-!
ezchat-server: bootstrap, logging, data-store and serve lifecycle.

A shallow embedding of the Go sources `main.go`, `cmd/root.go`, `config/config.go`,
`logger/logger.go` and `db/db.go`.

* Go `string` values are Lean `String`s (sequences of runes; well-formed UTF-8).
* Go `int` values are `Int`; the only arithmetic in the sources is
  `time.Duration(sec) * time.Second`, modelled with signed 64-bit wrap-around.
* Go `error` values are `Option GoError` (`none` is `nil`).
* Package-level variables (`config.current`, `logger.log`, `logger.sugar`, `db.DB`)
  are fields of an explicit `World`, which also carries the trace of observable events.
* Everything the sources obtain from libraries or the operating system (viper, gorm,
  the SQL driver, net/http, the Unicode case tables) is an oracle in `Env`.
* Dereferencing a nil pointer panics; a procedure returns `none` when it panicked and
  `some a` when it returned `a`, in both cases together with the world it left behind.
-/

namespace EzChat

/-! ## Errors -/

/-- Go error values, as far as the sources inspect them: `os.IsNotExist`,
`errors.As(err, &viper.ConfigFileNotFoundError{})` and `fmt.Errorf("...%w", err)`. -/
inductive GoError where
  /-- An error for which `os.IsNotExist` holds (a path error carrying ENOENT). -/
  | notExist (msg : String)
  /-- A `viper.ConfigFileNotFoundError`. -/
  | configFileNotFound (msg : String)
  /-- Any other error produced by a library (parse errors, driver errors, deadline exceeded). -/
  | other (msg : String)
  /-- The result of `fmt.Errorf(msg ++ "%w", inner)` or `%w` wrapping in general. -/
  | wrapped (msg : String) (inner : GoError)
  deriving DecidableEq, Repr

namespace GoError

/-- Go `os.IsNotExist(err)`: looks at the error itself; it does not follow `%w` wrapping. -/
def isNotExist : GoError → Bool
  | notExist _ => true
  | _ => false

/-- Go `errors.As(err, &perr)` with `perr` a `viper.ConfigFileNotFoundError`: follows the
`Unwrap` chain. -/
def asConfigFileNotFound : GoError → Bool
  | configFileNotFound _ => true
  | wrapped _ inner => asConfigFileNotFound inner
  | _ => false

end GoError

/-! ## Log levels and `strings.ToLower` -/

/-- The `zapcore.Level` constants returned by `getZapLevel`. -/
inductive zapcore.Level where
  | DebugLevel | InfoLevel | WarnLevel | ErrorLevel | DPanicLevel | PanicLevel | FatalLevel
  deriving DecidableEq, Repr

/-- Go `'A' <= c && c <= 'Z'`. -/
def isUpperASCII (c : Char) : Bool :=
  decide (65 ≤ c.toNat) && decide (c.toNat ≤ 90)

/-- Go `c += 'a' - 'A'` on an upper-case ASCII letter, identity elsewhere. -/
def lowerASCII (c : Char) : Char :=
  if isUpperASCII c then Char.ofNat (c.toNat + 32) else c

/-- Go `unicode.ToLower`: ASCII runes are handled inline, every other rune goes through
the Unicode case tables, which are library data and are taken as the parameter `table`. -/
def unicode.ToLower (table : Char → Char) (r : Char) : Char :=
  if r.toNat ≤ 127 then lowerASCII r else table r

/-- Go `strings.ToLower`: an ASCII-only string without upper-case letters is returned
unchanged, an ASCII-only string is lowered bytewise, any other string is mapped rune by
rune through `unicode.ToLower`. -/
def strings.ToLower (table : Char → Char) (s : String) : String :=
  if s.data.all (fun c => decide (c.toNat < 128)) then
    if s.data.any isUpperASCII then String.mk (s.data.map lowerASCII) else s
  else String.mk (s.data.map (unicode.ToLower table))

namespace logger

/-- The `switch` of `getZapLevel` on the already lower-cased string. -/
def levelOfLowered (lowered : String) : zapcore.Level :=
  if lowered = "debug" then zapcore.Level.DebugLevel
  else if lowered = "info" then zapcore.Level.InfoLevel
  else if lowered = "warn" ∨ lowered = "warning" then zapcore.Level.WarnLevel
  else if lowered = "error" then zapcore.Level.ErrorLevel
  else if lowered = "dpanic" then zapcore.Level.DPanicLevel
  else if lowered = "panic" then zapcore.Level.PanicLevel
  else if lowered = "fatal" then zapcore.Level.FatalLevel
  else zapcore.Level.InfoLevel

/-- Go `logger.getZapLevel`: `switch strings.ToLower(level) { ... default: InfoLevel }`. -/
def getZapLevel (table : Char → Char) (level : String) : zapcore.Level :=
  levelOfLowered (strings.ToLower table level)

end logger

/-! ## Data model -/

namespace GoError

/-- Go `err.Error()`: the message, with `%w` wrapping rendered as a prefix. -/
def Error : GoError → String
  | notExist msg => msg
  | configFileNotFound msg => msg
  | other msg => msg
  | wrapped msg inner => msg ++ Error inner

end GoError

namespace logger

/-- Go `logger.Options`. -/
structure Options where
  Level : String
  Encoding : String
  File : String
  MaxSizeMB : Int
  MaxBackups : Int
  MaxAgeDays : Int
  Compress : Bool
  Console : Bool
  deriving DecidableEq, Repr

/-- The two encoders `Init` chooses between. -/
inductive Encoder where
  | console
  | json
  deriving DecidableEq, Repr

/-- Where a core writes: a `lumberjack.Logger` value (built without touching the file
system; lumberjack opens the file on the first write) or `os.Stdout`. -/
inductive Sink where
  | lumberjack (Filename : String) (MaxSize MaxBackups MaxAge : Int) (Compress : Bool)
  | stdout
  deriving DecidableEq, Repr

/-- The result of `zapcore.NewCore(encoder, sink, level)`. -/
structure Core where
  encoder : Encoder
  sink : Sink
  level : zapcore.Level
  deriving DecidableEq, Repr

/-- The result of `zap.New(zapcore.NewTee(cores...), ...)`; `Sugar()` wraps the same value. -/
structure Logger where
  cores : List Core
  deriving DecidableEq, Repr

end logger

namespace db

/-- Go `db.Options`. -/
structure Options where
  DSN : String
  MaxOpenConns : Int
  MaxIdleConns : Int
  ConnMaxIdleSec : Int
  ConnMaxLifeSec : Int
  deriving DecidableEq, Repr

end db

namespace config

/-- Go `config.HTTPConfig`. -/
structure HTTPConfig where
  Host : String
  Port : Int
  deriving DecidableEq, Repr

/-- Go `config.LogConfig`. -/
structure LogConfig where
  Level : String
  Encoding : String
  File : String
  MaxSizeMB : Int
  MaxBackups : Int
  MaxAgeDays : Int
  Compress : Bool
  Console : Bool
  deriving DecidableEq, Repr

/-- Go `config.DBConfig`. -/
structure DBConfig where
  DSN : String
  MaxOpenConns : Int
  MaxIdleConns : Int
  ConnMaxIdleSec : Int
  ConnMaxLifeSec : Int
  deriving DecidableEq, Repr

/-- Go `config.Config`. -/
structure Config where
  HTTP : HTTPConfig
  Log : LogConfig
  DB : DBConfig
  deriving DecidableEq, Repr

end config

/-- The three bootstrap steps whose entry and return are recorded in the trace. -/
inductive Step where
  | configInit
  | loggerInit
  | dbInit
  deriving DecidableEq, Repr

/-- Observable events, in program order. Connection pools are named by the index of the
`db.Init` call that opened them (each `gorm.Open` creates a fresh pool). -/
inductive Event where
  /-- Entry into `config.Init`, `logger.Init` or `db.Init`. -/
  | enter (f : Step)
  /-- Return from one of them, with the returned error. -/
  | leave (f : Step) (err : Option GoError)
  | gormOpen (pool : Nat) (dsn : String)
  | setMaxOpenConns (pool : Nat) (n : Int)
  | setMaxIdleConns (pool : Nat) (n : Int)
  | setConnMaxIdleTime (pool : Nat) (d : Int)
  | setConnMaxLifetime (pool : Nat) (d : Int)
  | ping (pool : Nat)
  /-- The assignment `DB = gdb`. -/
  | assignDB (pool : Nat)
  /-- The assignment `sugar = log.Sugar()`. -/
  | assignSugar
  /-- A method call on the result of `logger.S()` (the pointer is dereferenced). -/
  | sugarUse (msg : String)
  | stdout (line : String)
  | stderr (line : String)
  | listenAndServe (addr : String)
  | signalReceived
  /-- The call `srv.Shutdown(ctx)`, with the timeout of `ctx` in nanoseconds. -/
  | shutdown (timeout : Int)
  deriving DecidableEq, Repr

/-- The package-level variables of the process and the trace of events so far. -/
structure World where
  /-- Go `config.current`. -/
  current : Option config.Config
  /-- Go `logger.log`. -/
  log : Option logger.Logger
  /-- Go `logger.sugar`. -/
  sugar : Option logger.Logger
  /-- Go `db.DB`, as the index of the pool it points to. -/
  DB : Option Nat
  /-- Number of `db.Init` calls made so far. -/
  dbInits : Nat
  trace : List Event
  deriving DecidableEq, Repr

/-- A freshly started process: every package-level pointer is nil. -/
def World.fresh : World :=
  { current := none, log := none, sugar := none, DB := none, dbInits := 0, trace := [] }

/-- What the libraries and the operating system answer during one run of the process. -/
structure Env where
  /-- The Unicode lower-case table behind `unicode.ToLower` for non-ASCII runes. -/
  lowerTable : Char → Char
  /-- Result of `viper.ReadInConfig()`, given the `--config` path (empty: search mode). -/
  readInConfig : String → Option GoError
  /-- Result of `viper.Unmarshal(&cfg)`: the merged defaults, file and environment values. -/
  unmarshal : Except GoError config.Config
  /-- Result of `viper.ConfigFileUsed()`. -/
  configFileUsed : String
  /-- Whether the operating system would let the named log file be opened. The sources
  never ask; lumberjack finds out on the first write. -/
  logFileOpenable : String → Bool
  /-- Result of `gorm.Open(mysql.Open(dsn), ...)` in the n-th `db.Init` call. -/
  gormOpen : Nat → String → Option GoError
  /-- Result of `gdb.DB()` in the n-th `db.Init` call. -/
  sqlDB : Nat → Option GoError
  /-- Result of `sqlDB.Ping()` in the n-th `db.Init` call. -/
  ping : Nat → Option GoError
  /-- Result of `srv.ListenAndServe()` (never nil in Go). -/
  listenAndServe : GoError
  /-- Result of `srv.Shutdown(ctx)`, given the timeout of `ctx` in nanoseconds. -/
  shutdown : Int → Option GoError

/-- A procedure over the world: `none` is a panic (nil pointer dereference), `some a` a
normal return; the world reached, with its trace, is kept in both cases. -/
def Proc (α : Type) : Type := World → Option α × World

instance : Monad Proc where
  pure a := fun w => (some a, w)
  bind x f := fun w =>
    match x w with
    | (some a, w1) => f a w1
    | (none, w1) => (none, w1)

/-- Read the package-level variables. -/
def getWorld : Proc World := fun w => (some w, w)

/-- Assign package-level variables. -/
def modifyWorld (f : World → World) : Proc Unit := fun w => (some (), f w)

/-- A nil pointer dereference: the goroutine panics. -/
def nilDeref {α : Type} : Proc α := fun w => (none, w)

/-- Append an event to the trace. -/
def emit (e : Event) : Proc Unit :=
  modifyWorld fun w => { w with trace := w.trace ++ [e] }

/-- Go `if c { act }` as a statement. -/
def ifThen (c : Prop) [Decidable c] (act : Proc Unit) : Proc Unit :=
  if c then act else pure ()

/-- Record entry and return of a bootstrap step around its body. -/
def traced (f : Step) (body : Proc (Option GoError)) : Proc (Option GoError) := do
  emit (Event.enter f)
  let r ← body
  emit (Event.leave f r)
  pure r

/-- Go `int64` wrap-around of a mathematical integer. -/
def wrapInt64 (x : Int) : Int :=
  (x + 9223372036854775808) % 18446744073709551616 - 9223372036854775808

/-- Go `time.Second`, in nanoseconds. -/
def time.Second : Int := 1000000000

/-- Go `time.Duration(sec) * time.Second`. -/
def secondsToDuration (sec : Int) : Int :=
  wrapInt64 (wrapInt64 sec * time.Second)

/-- Go `http.ErrServerClosed`. -/
def http.ErrServerClosed : GoError := GoError.other "http: Server closed"

/-! ## logger -/

namespace logger

/-- Go `logger.S()`. -/
def S : Proc (Option Logger) := do
  pure (← getWorld).sugar

/-- A logging method (`Info`, `Error`, `Infow`, `Errorw`) called on `logger.S()`: panics
when the pointer is nil. -/
def sugarCall (msg : String) : Proc Unit := do
  match ← S with
  | none => nilDeref
  | some _ => emit (Event.sugarUse msg)

/-- The slice `cores` that `Init` hands to `zapcore.NewTee`. -/
def buildCores (table : Char → Char) (lc : Options) : List Core :=
  let encoder :=
    if strings.ToLower table lc.Encoding = "console" then Encoder.console else Encoder.json
  let cores : List Core := []
  let cores :=
    if lc.File ≠ "" then
      cores ++ [{ encoder := encoder,
                  sink := Sink.lumberjack lc.File lc.MaxSizeMB lc.MaxBackups lc.MaxAgeDays
                    lc.Compress,
                  level := getZapLevel table lc.Level }]
    else cores
  let cores :=
    if lc.Console ∨ lc.File = "" then
      cores ++ [{ encoder := encoder, sink := Sink.stdout, level := getZapLevel table lc.Level }]
    else cores
  cores

/-- Go `logger.Init`: builds the cores, assigns `log` and `sugar`, returns nil. -/
def Init (env : Env) (lc : Options) : Proc (Option GoError) :=
  traced Step.loggerInit do
    let core : Logger := { cores := buildCores env.lowerTable lc }
    modifyWorld fun w => { w with log := some core, sugar := some core }
    emit Event.assignSugar
    pure none

end logger

/-! ## db -/

namespace db

/-- Go `db.Init`. -/
def Init (env : Env) (opts : Options) : Proc (Option GoError) :=
  traced Step.dbInit do
    let n := (← getWorld).dbInits
    modifyWorld fun w => { w with dbInits := n + 1 }
    emit (Event.gormOpen n opts.DSN)
    match env.gormOpen n opts.DSN with
    | some err => pure (some err)
    | none =>
      match env.sqlDB n with
      | some err => pure (some err)
      | none => do
        ifThen (opts.MaxOpenConns > 0)
          (emit (Event.setMaxOpenConns n opts.MaxOpenConns))
        ifThen (opts.MaxIdleConns > 0)
          (emit (Event.setMaxIdleConns n opts.MaxIdleConns))
        ifThen (opts.ConnMaxIdleSec > 0)
          (emit (Event.setConnMaxIdleTime n (secondsToDuration opts.ConnMaxIdleSec)))
        ifThen (opts.ConnMaxLifeSec > 0)
          (emit (Event.setConnMaxLifetime n (secondsToDuration opts.ConnMaxLifeSec)))
        emit (Event.ping n)
        match env.ping n with
        | some err => do
          logger.sugarCall "failed to ping database"
          pure (some err)
        | none => do
          modifyWorld fun w => { w with DB := some n }
          emit (Event.assignDB n)
          pure none

end db

/-! ## config -/

namespace config

/-- Go `config.Get()`. -/
def Get : Proc (Option Config) := do
  pure (← getWorld).current

/-- Dereference of a `*Config`: panics on nil. -/
def deref : Option Config → Proc Config
  | none => nilDeref
  | some cfg => pure cfg

/-- Go `config.InitFromViper`. -/
def InitFromViper (env : Env) : Proc (Option GoError) := do
  match env.unmarshal with
  | Except.error err => pure (some (GoError.wrapped "failed to unmarshal config: " err))
  | Except.ok cfg => do
    modifyWorld fun w => { w with current := some cfg }
    pure none

/-- The outcome of the `viper.ReadInConfig()` block of `InitWithFile`: the error it returns
early with, or `none` when control falls through to `InitFromViper`. -/
def readConfig (env : Env) (cfgFile : String) : Option GoError :=
  match env.readInConfig cfgFile with
  | some err =>
    if cfgFile ≠ "" then
      some (GoError.wrapped ("failed to read config file " ++ cfgFile ++ ": ") err)
    else if !err.isNotExist && !err.asConfigFileNotFound then
      some err
    else none
  | none => none

/-- Go `config.InitWithFile`. -/
def InitWithFile (env : Env) (cfgFile : String) : Proc (Option GoError) := do
  match readConfig env cfgFile with
  | some err => pure (some err)
  | none =>
    match ← InitFromViper env with
    | some err => pure (some err)
    | none => do
      let current ← deref (← Get)
      let lopts : logger.Options :=
        { Level := current.Log.Level, Encoding := current.Log.Encoding,
          File := current.Log.File, MaxSizeMB := current.Log.MaxSizeMB,
          MaxBackups := current.Log.MaxBackups, MaxAgeDays := current.Log.MaxAgeDays,
          Compress := current.Log.Compress, Console := current.Log.Console }
      match ← logger.Init env lopts with
      | some err => pure (some err)
      | none => do
        let dbErr ←
          (if current.DB.DSN ≠ "" then
            db.Init env
              { DSN := current.DB.DSN, MaxOpenConns := current.DB.MaxOpenConns,
                MaxIdleConns := current.DB.MaxIdleConns,
                ConnMaxIdleSec := current.DB.ConnMaxIdleSec,
                ConnMaxLifeSec := current.DB.ConnMaxLifeSec }
          else pure none)
        match dbErr with
        | some err => pure (some err)
        | none => do
          ifThen (env.configFileUsed ≠ "")
            (emit (Event.stderr ("Using config file: " ++ env.configFileUsed)))
          pure none

/-- Go `config.Init`. -/
def Init (env : Env) (cfgFile : String) : Proc (Option GoError) :=
  traced Step.configInit (InitWithFile env cfgFile)

end config

/-! ## cmd and main -/

namespace cmd

/-- Go `rootCmd.PersistentPreRunE` (Bootstrap); `cfgFile` is the value of `--config`. -/
def PersistentPreRunE (env : Env) (cfgFile : String) : Proc (Option GoError) := do
  match ← config.Init env cfgFile with
  | some err => do
    emit (Event.stdout "failed to initialize config")
    pure (some err)
  | none => do
    let cfg ← config.deref (← config.Get)
    match ← logger.Init env
        { Level := cfg.Log.Level, Encoding := cfg.Log.Encoding, File := cfg.Log.File,
          MaxSizeMB := cfg.Log.MaxSizeMB, MaxBackups := cfg.Log.MaxBackups,
          MaxAgeDays := cfg.Log.MaxAgeDays, Compress := cfg.Log.Compress,
          Console := cfg.Log.Console } with
    | some err => do
      emit (Event.stdout "failed to initialize logger")
      pure (some err)
    | none => do
      logger.sugarCall "logger initialized"
      match ← db.Init env
          { DSN := cfg.DB.DSN, MaxOpenConns := cfg.DB.MaxOpenConns,
            MaxIdleConns := cfg.DB.MaxIdleConns, ConnMaxIdleSec := cfg.DB.ConnMaxIdleSec,
            ConnMaxLifeSec := cfg.DB.ConnMaxLifeSec } with
      | some err => do
        logger.sugarCall "failed to initialize database"
        pure (some err)
      | none => do
        logger.sugarCall "database initialized"
        pure none

/-- The goroutine started by `RunE`. It only reads `logger.sugar`, which nothing writes
while `RunE` runs, so placing its events at the point of the `go` statement loses no
behaviour of the return value or of panics. -/
def serveGoroutine (env : Env) (addr : String) : Proc Unit := do
  logger.sugarCall "http server starting"
  emit (Event.listenAndServe addr)
  ifThen (env.listenAndServe ≠ http.ErrServerClosed)
    (logger.sugarCall "http server error")

/-- Go `rootCmd.RunE` (the serve step), for a run in which a termination signal arrives. -/
def RunE (env : Env) : Proc (Option GoError) := do
  match ← config.Get with
  | none => do
    logger.sugarCall "no config loaded"
    pure (some (GoError.other "no config loaded"))
  | some cfg => do
    let addr := cfg.HTTP.Host ++ ":" ++ toString cfg.HTTP.Port
    serveGoroutine env addr
    emit Event.signalReceived
    logger.sugarCall "shutting down http server"
    emit (Event.shutdown (5 * time.Second))
    match env.shutdown (5 * time.Second) with
    | some err => do
      logger.sugarCall "http server shutdown error"
      pure (some err)
    | none => do
      logger.sugarCall "http server exited gracefully"
      pure none

/-- Go `cmd.Execute`, that is cobra running the root command of a well-formed command
line: `PersistentPreRunE`, then `RunE` unless the former returned an error. -/
def Execute (env : Env) (cfgFile : String) : Proc (Option GoError) := do
  match ← PersistentPreRunE env cfgFile with
  | some err => pure (some err)
  | none => RunE env

end cmd

/-- Go `main`, as the exit code of the process: 1 after `os.Exit(1)`, 0 when `main`
returns, 2 when the Go runtime aborts on a panic. -/
def main (env : Env) (cfgFile : String) : Nat :=
  match (cmd.Execute env cfgFile World.fresh).1 with
  | none => 2
  | some (some _) => 1
  | some none => 0

/-- The line `main` prints to the error stream, when it prints one. -/
def mainStderr (env : Env) (cfgFile : String) : Option String :=
  match (cmd.Execute env cfgFile World.fresh).1 with
  | some (some err) => some err.Error
  | _ => none

/-! ## Sample inputs -/

/-- A sample of the Unicode lower-case table: U+0130 maps to `i`, U+212A (Kelvin sign) maps
to `k`, every other rune is left alone. -/
def sampleTable (c : Char) : Char :=
  if c.toNat = 304 then 'i' else if c.toNat = 8490 then 'k' else c

/-- A configuration snapshot with the given log file and connection string. -/
def sampleConfig (file dsn : String) : config.Config :=
  { HTTP := { Host := "127.0.0.1", Port := 8080 },
    Log := { Level := "info", Encoding := "json", File := file, MaxSizeMB := 10,
             MaxBackups := 3, MaxAgeDays := 7, Compress := false, Console := false },
    DB := { DSN := dsn, MaxOpenConns := 10, MaxIdleConns := 0, ConnMaxIdleSec := 60,
            ConnMaxLifeSec := 0 } }

/-- A run in which every library call succeeds and the configuration is `cfg`. -/
def happyEnv (cfg : config.Config) : Env :=
  { lowerTable := sampleTable,
    readInConfig := fun _ => none,
    unmarshal := Except.ok cfg,
    configFileUsed := "config/config.yaml",
    logFileOpenable := fun _ => true,
    gormOpen := fun _ _ => none,
    sqlDB := fun _ => none,
    ping := fun _ => none,
    listenAndServe := http.ErrServerClosed,
    shutdown := fun _ => none }

/-! ## Definitions used to state the properties -/

/-- The events of the four pool setters of the n-th `db.Init` call. -/
def db.setterEvents (n : Nat) (opts : db.Options) : List Event :=
  (if opts.MaxOpenConns > 0 then [Event.setMaxOpenConns n opts.MaxOpenConns] else []) ++
  (if opts.MaxIdleConns > 0 then [Event.setMaxIdleConns n opts.MaxIdleConns] else []) ++
  (if opts.ConnMaxIdleSec > 0 then
    [Event.setConnMaxIdleTime n (secondsToDuration opts.ConnMaxIdleSec)] else []) ++
  (if opts.ConnMaxLifeSec > 0 then
    [Event.setConnMaxLifetime n (secondsToDuration opts.ConnMaxLifeSec)] else [])

/-- The world after the n-th `db.Init` call has appended the events `evs`. -/
def World.afterDb (w : World) (handle : Option Nat) (evs : List Event) : World :=
  { w with
    DB := handle,
    dbInits := w.dbInits + 1,
    trace := w.trace ++ evs }

/-- Whether the n-th `db.Init` call returns, and with which error. -/
def db.result (env : Env) (opts : db.Options) (n : Nat) (sugar : Option logger.Logger) :
    Option (Option GoError) :=
  match env.gormOpen n opts.DSN with
  | some e => some (some e)
  | none =>
    match env.sqlDB n with
    | some e => some (some e)
    | none =>
      match env.ping n with
      | some e => sugar.map (fun _ => some e)
      | none => some none

/-- The events of the n-th `db.Init` call, from its entry on. -/
def db.events (env : Env) (opts : db.Options) (n : Nat) (sugar : Option logger.Logger) :
    List Event :=
  Event.enter Step.dbInit :: Event.gormOpen n opts.DSN ::
    match env.gormOpen n opts.DSN with
    | some e => [Event.leave Step.dbInit (some e)]
    | none =>
      match env.sqlDB n with
      | some e => [Event.leave Step.dbInit (some e)]
      | none =>
        db.setterEvents n opts ++ Event.ping n ::
          match env.ping n with
          | some e =>
            match sugar with
            | none => []
            | some _ => [Event.sugarUse "failed to ping database",
                Event.leave Step.dbInit (some e)]
          | none => [Event.assignDB n, Event.leave Step.dbInit none]

/-- The handle in `db.DB` after the n-th `db.Init` call. -/
def db.handleAfter (env : Env) (opts : db.Options) (n : Nat) (sugar : Option logger.Logger)
    (old : Option Nat) : Option Nat :=
  match db.result env opts n sugar with
  | some none => some n
  | _ => old

/-- The `logger.Options` that `InitWithFile` and `PersistentPreRunE` build from a snapshot. -/
def logOptionsOf (cfg : config.Config) : logger.Options :=
  { Level := cfg.Log.Level, Encoding := cfg.Log.Encoding, File := cfg.Log.File,
    MaxSizeMB := cfg.Log.MaxSizeMB, MaxBackups := cfg.Log.MaxBackups,
    MaxAgeDays := cfg.Log.MaxAgeDays, Compress := cfg.Log.Compress,
    Console := cfg.Log.Console }

/-- The `db.Options` that `InitWithFile` and `PersistentPreRunE` build from a snapshot. -/
def dbOptionsOf (cfg : config.Config) : db.Options :=
  { DSN := cfg.DB.DSN, MaxOpenConns := cfg.DB.MaxOpenConns,
    MaxIdleConns := cfg.DB.MaxIdleConns, ConnMaxIdleSec := cfg.DB.ConnMaxIdleSec,
    ConnMaxLifeSec := cfg.DB.ConnMaxLifeSec }

/-- The logger that `logger.Init` assigns for a snapshot. -/
def loggerOf (env : Env) (cfg : config.Config) : logger.Logger :=
  { cores := logger.buildCores env.lowerTable (logOptionsOf cfg) }

/-- The three events of one `logger.Init` call. -/
def loggerEvents : List Event :=
  [Event.enter Step.loggerInit, Event.assignSugar, Event.leave Step.loggerInit none]

/-- The line `InitWithFile` prints when viper used a configuration file. -/
def usingFileEvents (env : Env) : List Event :=
  if env.configFileUsed ≠ "" then
    [Event.stderr ("Using config file: " ++ env.configFileUsed)]
  else []

/-- The log line `PersistentPreRunE` writes after its `db.Init` call returned `r`. -/
def dbLogLine (r : Option GoError) : Event :=
  match r with
  | some _ => Event.sugarUse "failed to initialize database"
  | none => Event.sugarUse "database initialized"

/-- The world of a process whose configuration and logger are set. -/
def World.booted (env : Env) (cfg : config.Config) (handle : Option Nat) (n : Nat)
    (tr : List Event) : World :=
  { current := some cfg, log := some (loggerOf env cfg), sugar := some (loggerOf env cfg),
    DB := handle, dbInits := n, trace := tr }

/-- The events of `PersistentPreRunE` after a successful `config.Init`: its own
`logger.Init` and `db.Init` calls, the latter being the n-th and returning `r`. -/
def ownCalls (env : Env) (cfg : config.Config) (n : Nat) (r : Option GoError) : List Event :=
  loggerEvents ++ [Event.sugarUse "logger initialized"] ++
    db.events env (dbOptionsOf cfg) n (some (loggerOf env cfg)) ++ [dbLogLine r]

/-- The events of `RunE` when a configuration is loaded and the logger is set. -/
def serveEvents (env : Env) (cfg : config.Config) : List Event :=
  [Event.sugarUse "http server starting",
   Event.listenAndServe (cfg.HTTP.Host ++ ":" ++ toString cfg.HTTP.Port)] ++
  (if env.listenAndServe ≠ http.ErrServerClosed then [Event.sugarUse "http server error"]
   else []) ++
  [Event.signalReceived, Event.sugarUse "shutting down http server",
   Event.shutdown (5 * time.Second),
   match env.shutdown (5 * time.Second) with
   | some _ => Event.sugarUse "http server shutdown error"
   | none => Event.sugarUse "http server exited gracefully"]

/-- Entry and return marks of the bootstrap steps in a trace. -/
inductive Mark where
  | enter (f : Step)
  | leave (f : Step) (err : Option GoError)
  deriving DecidableEq, Repr

/-- The mark an event carries, if it is the entry into or the return from a step. -/
def Event.toMark : Event → Option Mark
  | Event.enter f => some (Mark.enter f)
  | Event.leave f err => some (Mark.leave f err)
  | _ => none

/-- The calls that return at nesting depth one (counting from depth `d`), each with the
error it returned: with `d = 0`, the calls made by the procedure that produced the trace
itself, not those made inside the callees. -/
def topCallsFrom : Nat → List Mark → List (Step × Option GoError)
  | _, [] => []
  | d, Mark.enter _ :: ms => topCallsFrom (d + 1) ms
  | d, Mark.leave f err :: ms =>
    if d = 1 then (f, err) :: topCallsFrom 0 ms else topCallsFrom (d - 1) ms

/-- The step calls a procedure made itself, in order, with the error each returned. -/
def topCalls (tr : List Event) : List (Step × Option GoError) :=
  topCallsFrom 0 (tr.filterMap Event.toMark)

/-- Whether a sink is the rotating-file sink. -/
def logger.Sink.isFile : logger.Sink → Bool
  | logger.Sink.lumberjack _ _ _ _ _ => true
  | logger.Sink.stdout => false

/-- A run in which the configuration is `cfg` and the database server refuses connections. -/
def refusedEnv (cfg : config.Config) : Env :=
  { happyEnv cfg with
    gormOpen := fun _ _ =>
      some (GoError.other "dial tcp 127.0.0.1:3306: connect: connection refused") }

/-- A run in which no log file can be opened. -/
def unwritableLogEnv (cfg : config.Config) : Env :=
  { happyEnv cfg with logFileOpenable := fun _ => false }

/-- A run in which `viper.ReadInConfig` fails with `e`. -/
def readErrorEnv (e : GoError) : Env :=
  { happyEnv (sampleConfig "" "") with readInConfig := fun _ => some e, configFileUsed := "" }

/-- Whether an event is a call of one of the four pool setters. -/
def Event.isSetter : Event → Bool
  | Event.setMaxOpenConns _ _ => true
  | Event.setMaxIdleConns _ _ => true
  | Event.setConnMaxIdleTime _ _ => true
  | Event.setConnMaxLifetime _ _ => true
  | _ => false

/-- A sample `db.Options`: two positive limits, one zero, one negative. -/
def sampleDbOptions : db.Options :=
  { DSN := "u:p@tcp(db)/ez", MaxOpenConns := 10, MaxIdleConns := 0, ConnMaxIdleSec := 60,
    ConnMaxLifeSec := -1 }

/-- A `db.Options` whose lifetime limit, in seconds, no longer fits a `time.Duration`. -/
def longLifeDbOptions : db.Options :=
  { DSN := "u:p@tcp(db)/ez", MaxOpenConns := 0, MaxIdleConns := 0, ConnMaxIdleSec := 0,
    ConnMaxLifeSec := 9223372037 }

/-- Whether an event is the assignment of `db.DB`. -/
def Event.isAssignDB : Event → Bool
  | Event.assignDB _ => true
  | _ => false

/-- A run in which draining the server does not finish within the timeout. -/
def slowDrainEnv (cfg : config.Config) : Env :=
  { happyEnv cfg with shutdown := fun _ => some (GoError.other "context deadline exceeded") }

/-! ## Run lemmas -/

theorem run_bind {α β : Type} (x : Proc α) (f : α → Proc β) (w : World) :
    (x >>= f) w =
      match x w with
      | (some a, w1) => f a w1
      | (none, w1) => (none, w1) := rfl

theorem run_pure {α : Type} (a : α) (w : World) : (pure a : Proc α) w = (some a, w) := rfl

theorem run_getWorld (w : World) : getWorld w = (some w, w) := rfl

theorem run_modifyWorld (f : World → World) (w : World) :
    modifyWorld f w = (some (), f w) := rfl

theorem run_nilDeref {α : Type} (w : World) : (nilDeref : Proc α) w = (none, w) := rfl

theorem run_emit (e : Event) (w : World) :
    emit e w = (some (), { w with trace := w.trace ++ [e] }) := rfl

theorem run_condEmit (c : Prop) [Decidable c] (e : Event) (w : World) :
    ifThen c (emit e) w = (some (), { w with trace := w.trace ++ if c then [e] else [] }) := by
  unfold ifThen
  split <;> simp [run_emit, run_pure]

theorem run_sugarCall (msg : String) (w : World) :
    logger.sugarCall msg w =
      match w.sugar with
      | none => (none, w)
      | some _ => (some (), { w with trace := w.trace ++ [Event.sugarUse msg] }) := by
  obtain ⟨c, l, s, d, n, t⟩ := w
  cases s <;> rfl

theorem logger_Init_run (env : Env) (lc : logger.Options) (w : World) :
    logger.Init env lc w =
      (some none, { w with
        log := some { cores := logger.buildCores env.lowerTable lc },
        sugar := some { cores := logger.buildCores env.lowerTable lc },
        trace := w.trace ++ [Event.enter Step.loggerInit, Event.assignSugar,
          Event.leave Step.loggerInit none] }) := by
  simp only [logger.Init, traced, run_bind, run_emit, run_modifyWorld, run_pure,
    List.append_assoc, List.cons_append, List.nil_append]

theorem db_Init_run (env : Env) (opts : db.Options) (w : World) :
    db.Init env opts w =
      (db.result env opts w.dbInits w.sugar,
        w.afterDb (db.handleAfter env opts w.dbInits w.sugar w.DB)
          (db.events env opts w.dbInits w.sugar)) := by
  rcases ho : env.gormOpen w.dbInits opts.DSN with _ | e
  · rcases hs : env.sqlDB w.dbInits with _ | e
    · rcases hp : env.ping w.dbInits with _ | e
      · simp only [db.Init, traced, run_bind, run_emit, run_modifyWorld, run_pure, run_getWorld,
          run_condEmit, ho, hs, hp, World.afterDb, db.setterEvents, db.result, db.events,
          db.handleAfter, List.append_assoc, List.cons_append, List.nil_append]
      · rcases hsu : w.sugar with _ | l <;>
        simp only [db.Init, traced, run_bind, run_emit, run_modifyWorld, run_pure, run_getWorld,
          run_condEmit, run_sugarCall, ho, hs, hp, hsu, World.afterDb, db.setterEvents,
          db.result, db.events, db.handleAfter, List.append_assoc, List.cons_append,
          List.nil_append, Option.map_none', Option.map_some']
    · simp only [db.Init, traced, run_bind, run_emit, run_modifyWorld, run_pure, run_getWorld,
        ho, hs, World.afterDb, db.result, db.events, db.handleAfter, List.append_assoc,
        List.cons_append, List.nil_append]
  · simp only [db.Init, traced, run_bind, run_emit, run_modifyWorld, run_pure, run_getWorld,
      ho, World.afterDb, db.result, db.events, db.handleAfter, List.append_assoc,
      List.cons_append, List.nil_append]

theorem db_result_ready (env : Env) (opts : db.Options) (n : Nat) (l : logger.Logger) :
    ∃ r, db.result env opts n (some l) = some r := by
  unfold db.result
  rcases env.gormOpen n opts.DSN with _ | e
  · rcases env.sqlDB n with _ | e
    · rcases env.ping n with _ | e <;> simp
    · simp
  · simp

theorem boot_readFail (env : Env) (cfgFile : String) (e : GoError)
    (hr : config.readConfig env cfgFile = some e) :
    cmd.PersistentPreRunE env cfgFile World.fresh =
      (some (some e), { World.fresh with
        trace := [Event.enter Step.configInit, Event.leave Step.configInit (some e),
          Event.stdout "failed to initialize config"] }) := by
  simp only [cmd.PersistentPreRunE, config.Init, config.InitWithFile, traced,
    run_bind, run_emit, run_pure, hr, World.fresh, List.append_assoc, List.cons_append,
    List.nil_append]

theorem boot_unmarshalFail (env : Env) (cfgFile : String) (e : GoError)
    (hr : config.readConfig env cfgFile = none) (hu : env.unmarshal = Except.error e) :
    cmd.PersistentPreRunE env cfgFile World.fresh =
      (some (some (GoError.wrapped "failed to unmarshal config: " e)), { World.fresh with
        trace := [Event.enter Step.configInit,
          Event.leave Step.configInit (some (GoError.wrapped "failed to unmarshal config: " e)),
          Event.stdout "failed to initialize config"] }) := by
  simp only [cmd.PersistentPreRunE, config.Init, config.InitWithFile, traced,
    run_bind, run_emit, run_pure, hr, hu, config.InitFromViper, World.fresh,
    List.append_assoc, List.cons_append, List.nil_append]

theorem boot_noDsn (env : Env) (cfgFile : String) (cfg : config.Config) (r : Option GoError)
    (hr : config.readConfig env cfgFile = none) (hu : env.unmarshal = Except.ok cfg)
    (hd : cfg.DB.DSN = "")
    (h0 : db.result env (dbOptionsOf cfg) 0 (some (loggerOf env cfg)) = some r) :
    cmd.PersistentPreRunE env cfgFile World.fresh =
      (some r, World.booted env cfg
        (db.handleAfter env (dbOptionsOf cfg) 0 (some (loggerOf env cfg)) none) 1
        (Event.enter Step.configInit :: loggerEvents ++ usingFileEvents env ++
          [Event.leave Step.configInit none] ++ ownCalls env cfg 0 r)) := by
  simp only [dbOptionsOf, loggerOf, logOptionsOf, hd] at h0
  cases r <;>
  simp only [cmd.PersistentPreRunE, config.Init, config.InitWithFile, traced,
    run_bind, run_emit, run_pure, hr, hu, config.InitFromViper, run_modifyWorld, config.Get,
    config.deref, run_getWorld, logger_Init_run, hd, run_condEmit, ne_eq, not_true_eq_false,
    if_false, run_sugarCall, db_Init_run, World.afterDb, World.fresh, World.booted, ownCalls,
    loggerEvents, usingFileEvents, dbLogLine, dbOptionsOf, loggerOf, logOptionsOf, h0,
    List.append_assoc, List.cons_append, List.nil_append, Nat.zero_add]

theorem boot_nestedDbFail (env : Env) (cfgFile : String) (cfg : config.Config) (e : GoError)
    (hr : config.readConfig env cfgFile = none) (hu : env.unmarshal = Except.ok cfg)
    (hd : cfg.DB.DSN ≠ "")
    (h0 : db.result env (dbOptionsOf cfg) 0 (some (loggerOf env cfg)) = some (some e)) :
    cmd.PersistentPreRunE env cfgFile World.fresh =
      (some (some e), World.booted env cfg none 1
        (Event.enter Step.configInit :: loggerEvents ++
          db.events env (dbOptionsOf cfg) 0 (some (loggerOf env cfg)) ++
          [Event.leave Step.configInit (some e),
           Event.stdout "failed to initialize config"])) := by
  simp only [dbOptionsOf, loggerOf, logOptionsOf] at h0
  simp only [cmd.PersistentPreRunE, config.Init, config.InitWithFile, traced,
    run_bind, run_emit, run_pure, hr, hu, config.InitFromViper, run_modifyWorld, config.Get,
    config.deref, run_getWorld, logger_Init_run, hd, ne_eq, not_false_eq_true,
    if_true, db_Init_run, World.afterDb, World.fresh, World.booted,
    loggerEvents, dbOptionsOf, loggerOf, logOptionsOf, h0, db.handleAfter,
    List.append_assoc, List.cons_append, List.nil_append, Nat.zero_add]

theorem boot_bothDb (env : Env) (cfgFile : String) (cfg : config.Config) (r : Option GoError)
    (hr : config.readConfig env cfgFile = none) (hu : env.unmarshal = Except.ok cfg)
    (hd : cfg.DB.DSN ≠ "")
    (h0 : db.result env (dbOptionsOf cfg) 0 (some (loggerOf env cfg)) = some none)
    (h1 : db.result env (dbOptionsOf cfg) 1 (some (loggerOf env cfg)) = some r) :
    cmd.PersistentPreRunE env cfgFile World.fresh =
      (some r, World.booted env cfg
        (db.handleAfter env (dbOptionsOf cfg) 1 (some (loggerOf env cfg)) (some 0)) 2
        (Event.enter Step.configInit :: loggerEvents ++
          db.events env (dbOptionsOf cfg) 0 (some (loggerOf env cfg)) ++ usingFileEvents env ++
          [Event.leave Step.configInit none] ++ ownCalls env cfg 1 r)) := by
  simp only [dbOptionsOf, loggerOf, logOptionsOf] at h0 h1
  cases r <;>
  simp only [cmd.PersistentPreRunE, config.Init, config.InitWithFile, traced,
    run_bind, run_emit, run_pure, hr, hu, config.InitFromViper, run_modifyWorld, config.Get,
    config.deref, run_getWorld, logger_Init_run, hd, run_condEmit, ne_eq, not_false_eq_true,
    if_true, run_sugarCall, db_Init_run, World.afterDb, World.fresh, World.booted, ownCalls,
    loggerEvents, usingFileEvents, dbLogLine, dbOptionsOf, loggerOf, logOptionsOf, h0, h1,
    db.handleAfter, List.append_assoc, List.cons_append, List.nil_append, Nat.zero_add,
    Nat.reduceAdd]

theorem RunE_run (env : Env) (w : World) (cfg : config.Config) (l : logger.Logger)
    (hc : w.current = some cfg) (hs : w.sugar = some l) :
    cmd.RunE env w =
      (some (env.shutdown (5 * time.Second)),
        { w with trace := w.trace ++ serveEvents env cfg }) := by
  by_cases hl : env.listenAndServe = http.ErrServerClosed <;>
  rcases hsd : env.shutdown (5 * time.Second) with _ | e <;>
  simp only [cmd.RunE, cmd.serveGoroutine, run_bind, run_emit, run_pure, config.Get,
    run_getWorld, hc, hs, run_sugarCall, ifThen, hl, hsd, serveEvents, ne_eq,
    not_true_eq_false, not_false_eq_true, if_true, if_false,
    List.append_assoc, List.cons_append, List.nil_append, List.append_nil]

theorem Execute_run (env : Env) (cfgFile : String) (w : World) :
    cmd.Execute env cfgFile w =
      match cmd.PersistentPreRunE env cfgFile w with
      | (some (some e), w1) => (some (some e), w1)
      | (some none, w1) => cmd.RunE env w1
      | (none, w1) => (none, w1) := by
  simp only [cmd.Execute, run_bind]
  rcases cmd.PersistentPreRunE env cfgFile w with ⟨_ | _ | e, w1⟩ <;> rfl

/-- Every run of Bootstrap from a fresh process either fails before any logger exists,
leaving a trace without log calls, or returns with configuration and logger set and a
trace that starts with the first `logger.Init` call. -/
theorem boot_shape (env : Env) (cfgFile : String) :
    (∃ e, cmd.PersistentPreRunE env cfgFile World.fresh =
        (some (some e), { World.fresh with
          trace := [Event.enter Step.configInit, Event.leave Step.configInit (some e),
            Event.stdout "failed to initialize config"] })) ∨
    (∃ r cfg handle n rest, cmd.PersistentPreRunE env cfgFile World.fresh =
        (some r, World.booted env cfg handle n
          (Event.enter Step.configInit :: loggerEvents ++ rest))) := by
  rcases hr : config.readConfig env cfgFile with _ | e
  · rcases hu : env.unmarshal with e | cfg
    · exact Or.inl ⟨_, boot_unmarshalFail env cfgFile e hr hu⟩
    · right
      by_cases hd : cfg.DB.DSN = ""
      · obtain ⟨r, h0⟩ := db_result_ready env (dbOptionsOf cfg) 0 (loggerOf env cfg)
        exact ⟨r, cfg, _, _, usingFileEvents env ++ ([Event.leave Step.configInit none] ++
          ownCalls env cfg 0 r), by
            rw [boot_noDsn env cfgFile cfg r hr hu hd h0, List.append_assoc,
              List.append_assoc]⟩
      · obtain ⟨r0, h0⟩ := db_result_ready env (dbOptionsOf cfg) 0 (loggerOf env cfg)
        rcases r0 with _ | e
        · obtain ⟨r, h1⟩ := db_result_ready env (dbOptionsOf cfg) 1 (loggerOf env cfg)
          exact ⟨r, cfg, _, _, db.events env (dbOptionsOf cfg) 0 (some (loggerOf env cfg)) ++
            (usingFileEvents env ++ ([Event.leave Step.configInit none] ++
              ownCalls env cfg 1 r)), by
              rw [boot_bothDb env cfgFile cfg r hr hu hd h0 h1, List.append_assoc,
                List.append_assoc, List.append_assoc]⟩
        · exact ⟨some e, cfg, _, _, db.events env (dbOptionsOf cfg) 0
            (some (loggerOf env cfg)) ++ [Event.leave Step.configInit (some e),
              Event.stdout "failed to initialize config"], by
              rw [boot_nestedDbFail env cfgFile cfg e hr hu hd h0, List.append_assoc]⟩
  · exact Or.inl ⟨_, boot_readFail env cfgFile e hr⟩

/-- In a trace that starts with a complete `logger.Init` call preceded only by the entry
into `config.Init`, every log call comes after a return of `logger.Init`. -/
theorem logged_after_init (rest pre post : List Event) (msg : String)
    (h : Event.enter Step.configInit :: loggerEvents ++ rest =
      pre ++ Event.sugarUse msg :: post) :
    Event.leave Step.loggerInit none ∈ pre := by
  have h4 : ([Event.enter Step.configInit, Event.enter Step.loggerInit, Event.assignSugar,
      Event.leave Step.loggerInit none] ++ rest) = pre ++ Event.sugarUse msg :: post := h
  rcases List.append_eq_append_iff.mp h4 with ⟨a, ha, _⟩ | ⟨c, hc, hc2⟩
  · rw [ha]
    simp
  · rcases c with _ | ⟨x, c⟩
    · simp at hc
      rw [← hc]
      simp
    · simp only [List.cons_append, List.cons.injEq] at hc2
      obtain ⟨hx, _⟩ := hc2
      subst hx
      have hmem : Event.sugarUse msg ∈ pre ++ Event.sugarUse msg :: c := by simp
      rw [← hc] at hmem
      simp at hmem

/-- From a fresh process `cmd.Execute` never panics, every log call in its trace comes after
a return of `logger.Init`, and it returns either the Bootstrap error or what `RunE` returns
after a nil Bootstrap. -/
theorem Execute_fresh (env : Env) (cfgFile : String) :
    (∃ r, (cmd.Execute env cfgFile World.fresh).1 = some r ∧
      ((∃ e, (cmd.PersistentPreRunE env cfgFile World.fresh).1 = some (some e) ∧ r = some e) ∨
       ((cmd.PersistentPreRunE env cfgFile World.fresh).1 = some none ∧
         r = env.shutdown (5 * time.Second) ∧
         Event.shutdown (5 * time.Second) ∈ (cmd.Execute env cfgFile World.fresh).2.trace))) ∧
    (∀ pre msg post,
      (cmd.Execute env cfgFile World.fresh).2.trace = pre ++ Event.sugarUse msg :: post →
        Event.leave Step.loggerInit none ∈ pre) := by
  rcases boot_shape env cfgFile with ⟨e, h⟩ | ⟨r, cfg, handle, n, rest, h⟩
  · rw [Execute_run, h]
    refine ⟨⟨some e, rfl, Or.inl ⟨e, rfl, rfl⟩⟩, ?_⟩
    intro pre msg post hp
    have hmem : Event.sugarUse msg ∈ pre ++ Event.sugarUse msg :: post := by simp
    rw [← hp] at hmem
    simp at hmem
  · rcases r with _ | e
    · have hE : cmd.Execute env cfgFile World.fresh =
          (some (env.shutdown (5 * time.Second)),
            { World.booted env cfg handle n (Event.enter Step.configInit :: loggerEvents ++ rest)
              with trace := (Event.enter Step.configInit :: loggerEvents ++ rest) ++
                serveEvents env cfg }) := by
        rw [Execute_run, h]
        exact RunE_run env _ cfg (loggerOf env cfg) rfl rfl
      rw [hE, h]
      refine ⟨⟨_, rfl, Or.inr ⟨rfl, rfl, ?_⟩⟩, ?_⟩
      · simp [serveEvents]
      · intro pre msg post hp
        simp only [List.append_assoc] at hp
        exact logged_after_init _ pre post msg hp
    · rw [Execute_run, h]
      refine ⟨⟨some e, rfl, Or.inl ⟨e, rfl, rfl⟩⟩, ?_⟩
      intro pre msg post hp
      exact logged_after_init _ pre post msg hp

theorem marks_setterEvents (n : Nat) (opts : db.Options) :
    (db.setterEvents n opts).filterMap Event.toMark = [] := by
  unfold db.setterEvents
  split_ifs <;> rfl

theorem marks_db_events (env : Env) (opts : db.Options) (n : Nat) (l : logger.Logger)
    (r : Option GoError) (h : db.result env opts n (some l) = some r) :
    (db.events env opts n (some l)).filterMap Event.toMark =
      [Mark.enter Step.dbInit, Mark.leave Step.dbInit r] := by
  unfold db.result at h
  unfold db.events
  rcases ho : env.gormOpen n opts.DSN with _ | e
  · rcases hs : env.sqlDB n with _ | e
    · rcases hp : env.ping n with _ | e <;>
        simp [ho, hs, hp, Event.toMark, marks_setterEvents] at h ⊢ <;> exact h
    · simp [ho, hs, Event.toMark] at h ⊢
      exact h
  · simp [ho, Event.toMark] at h ⊢
    exact h

theorem marks_usingFileEvents (env : Env) :
    (usingFileEvents env).filterMap Event.toMark = [] := by
  unfold usingFileEvents
  split_ifs <;> rfl

theorem marks_ownCalls (env : Env) (cfg : config.Config) (n : Nat) (r : Option GoError)
    (h : db.result env (dbOptionsOf cfg) n (some (loggerOf env cfg)) = some r) :
    (ownCalls env cfg n r).filterMap Event.toMark =
      [Mark.enter Step.loggerInit, Mark.leave Step.loggerInit none,
       Mark.enter Step.dbInit, Mark.leave Step.dbInit r] := by
  unfold ownCalls
  simp only [List.filterMap_append, marks_db_events env _ n _ r h]
  cases r <;> rfl

/-- The calls Bootstrap makes itself: `config.Init`, then `logger.Init` and `db.Init` when
the former returned nil. The returned error is that of the last call made. -/
theorem boot_topCalls (env : Env) (cfgFile : String) :
    (∃ e, (cmd.PersistentPreRunE env cfgFile World.fresh).1 = some (some e) ∧
      topCalls (cmd.PersistentPreRunE env cfgFile World.fresh).2.trace =
        [(Step.configInit, some e)]) ∨
    (∃ r, (cmd.PersistentPreRunE env cfgFile World.fresh).1 = some r ∧
      topCalls (cmd.PersistentPreRunE env cfgFile World.fresh).2.trace =
        [(Step.configInit, none), (Step.loggerInit, none), (Step.dbInit, r)]) := by
  rcases hr : config.readConfig env cfgFile with _ | e
  · rcases hu : env.unmarshal with e | cfg
    · left
      rw [boot_unmarshalFail env cfgFile e hr hu]
      exact ⟨_, rfl, rfl⟩
    · by_cases hd : cfg.DB.DSN = ""
      · obtain ⟨r, h0⟩ := db_result_ready env (dbOptionsOf cfg) 0 (loggerOf env cfg)
        right
        rw [boot_noDsn env cfgFile cfg r hr hu hd h0]
        refine ⟨r, rfl, ?_⟩
        simp only [topCalls, World.booted, List.filterMap_append, List.filterMap_cons,
          marks_ownCalls env cfg 0 r h0, marks_usingFileEvents, loggerEvents, Event.toMark,
          List.filterMap_nil, List.append_nil, List.cons_append, List.nil_append]
        simp [topCallsFrom]
      · obtain ⟨r0, h0⟩ := db_result_ready env (dbOptionsOf cfg) 0 (loggerOf env cfg)
        rcases r0 with _ | e
        · obtain ⟨r, h1⟩ := db_result_ready env (dbOptionsOf cfg) 1 (loggerOf env cfg)
          right
          rw [boot_bothDb env cfgFile cfg r hr hu hd h0 h1]
          refine ⟨r, rfl, ?_⟩
          simp only [topCalls, World.booted, List.filterMap_append, List.filterMap_cons,
            marks_ownCalls env cfg 1 r h1, marks_usingFileEvents, loggerEvents, Event.toMark,
            marks_db_events env _ 0 _ none h0,
            List.filterMap_nil, List.append_nil, List.cons_append, List.nil_append]
          simp [topCallsFrom]
        · left
          rw [boot_nestedDbFail env cfgFile cfg e hr hu hd h0]
          refine ⟨e, rfl, ?_⟩
          simp only [topCalls, World.booted, List.filterMap_append, List.filterMap_cons,
            loggerEvents, Event.toMark, marks_db_events env _ 0 _ (some e) h0,
            List.filterMap_nil, List.append_nil, List.cons_append, List.nil_append]
          simp [topCallsFrom]
  · left
    rw [boot_readFail env cfgFile e hr]
    exact ⟨_, rfl, rfl⟩

theorem lowerASCII_of_not_upper (c : Char) (h : isUpperASCII c = false) : lowerASCII c = c := by
  simp [lowerASCII, h]

theorem lowerASCII_lowered (c : Char) :
    isUpperASCII (lowerASCII c) = false ∧ (c.toNat ≤ 127 → (lowerASCII c).toNat ≤ 127) := by
  by_cases hu : isUpperASCII c = true
  · have hc : c = Char.ofNat c.toNat := (Char.ofNat_toNat c).symm
    have hb : 65 ≤ c.toNat ∧ c.toNat ≤ 90 := by
      simpa [isUpperASCII] using hu
    generalize c.toNat = n at hc hb
    obtain ⟨h1, h2⟩ := hb
    subst hc
    interval_cases n <;> decide
  · have hu2 : isUpperASCII c = false := by simpa using hu
    rw [lowerASCII_of_not_upper c hu2]
    exact ⟨hu2, fun h => h⟩

theorem unicode_ToLower_idem (table : Char → Char)
    (htable : ∀ c : Char, 127 < c.toNat → unicode.ToLower table (table c) = table c)
    (c : Char) :
    unicode.ToLower table (unicode.ToLower table c) = unicode.ToLower table c := by
  by_cases hc : c.toNat ≤ 127
  · obtain ⟨h1, h2⟩ := lowerASCII_lowered c
    simp only [unicode.ToLower, hc, if_true, h2 hc]
    exact lowerASCII_of_not_upper _ h1
  · have hc2 : 127 < c.toNat := by omega
    have : unicode.ToLower table c = table c := by simp [unicode.ToLower, hc]
    rw [this]
    exact htable c hc2

theorem strings_ToLower_eq_map (table : Char → Char) (s : String) :
    strings.ToLower table s = String.mk (s.data.map (unicode.ToLower table)) := by
  unfold strings.ToLower
  by_cases hall : s.data.all (fun c => decide (c.toNat < 128)) = true
  · have hmap : s.data.map lowerASCII = s.data.map (unicode.ToLower table) := by
      apply List.map_congr_left
      intro c hc
      have : c.toNat < 128 := by simpa using (List.all_eq_true.mp hall) c hc
      have h127 : c.toNat ≤ 127 := by omega
      simp [unicode.ToLower, h127]
    rw [if_pos hall]
    by_cases hany : s.data.any isUpperASCII = true
    · rw [if_pos hany, hmap]
    · rw [if_neg hany, ← hmap]
      have hid : s.data.map lowerASCII = s.data := by
        have hcongr : s.data.map lowerASCII = s.data.map id := by
          apply List.map_congr_left
          intro c hc
          have hnu : isUpperASCII c = false := by
            by_contra hcon
            apply hany
            exact List.any_eq_true.mpr ⟨c, hc, by simpa using hcon⟩
          simp [lowerASCII_of_not_upper c hnu]
        rw [hcongr, List.map_id]
      rw [hid]
  · rw [if_neg hall]

theorem strings_ToLower_idem (table : Char → Char)
    (htable : ∀ c : Char, 127 < c.toNat → unicode.ToLower table (table c) = table c)
    (s : String) :
    strings.ToLower table (strings.ToLower table s) = strings.ToLower table s := by
  rw [strings_ToLower_eq_map table (strings.ToLower table s), strings_ToLower_eq_map table s]
  simp only [List.map_map]
  congr 1
  apply List.map_congr_left
  intro c _
  exact unicode_ToLower_idem table htable c

theorem sampleTable_lowered (c : Char) (_h : 127 < c.toNat) :
    unicode.ToLower sampleTable (sampleTable c) = sampleTable c := by
  unfold sampleTable
  by_cases h1 : c.toNat = 304
  · simp only [h1, if_true]
    decide
  · by_cases h2 : c.toNat = 8490
    · simp only [h1, h2, if_true, if_false]
      decide
    · simp only [h1, h2, if_false]
      have : ¬ c.toNat ≤ 127 := by omega
      simp [unicode.ToLower, this, sampleTable, h1, h2]

theorem buildCores_cases (table : Char → Char) (lc : logger.Options) :
    ∃ enc lvl,
      logger.buildCores table lc =
        (if lc.File ≠ "" then
          [{ encoder := enc,
             sink := logger.Sink.lumberjack lc.File lc.MaxSizeMB lc.MaxBackups lc.MaxAgeDays
               lc.Compress,
             level := lvl }]
         else []) ++
        (if lc.Console = true ∨ lc.File = "" then
          [{ encoder := enc, sink := logger.Sink.stdout, level := lvl }]
         else []) := by
  refine ⟨if strings.ToLower table lc.Encoding = "console" then logger.Encoder.console
    else logger.Encoder.json, logger.getZapLevel table lc.Level, ?_⟩
  unfold logger.buildCores
  simp only [List.nil_append]
  by_cases hf : lc.File = "" <;> by_cases hc : lc.Console = true <;> simp [hf, hc]

theorem mem_setterEvents_open (n : Nat) (opts : db.Options) (p : Nat) (v : Int) :
    Event.setMaxOpenConns p v ∈ db.setterEvents n opts ↔
      (0 < opts.MaxOpenConns ∧ v = opts.MaxOpenConns ∧ p = n) := by
  unfold db.setterEvents
  split_ifs <;> simp_all <;> omega

theorem mem_setterEvents_idle (n : Nat) (opts : db.Options) (p : Nat) (v : Int) :
    Event.setMaxIdleConns p v ∈ db.setterEvents n opts ↔
      (0 < opts.MaxIdleConns ∧ v = opts.MaxIdleConns ∧ p = n) := by
  unfold db.setterEvents
  split_ifs <;> simp_all <;> omega

theorem mem_setterEvents_idleTime (n : Nat) (opts : db.Options) (p : Nat) (d : Int) :
    Event.setConnMaxIdleTime p d ∈ db.setterEvents n opts ↔
      (0 < opts.ConnMaxIdleSec ∧ d = secondsToDuration opts.ConnMaxIdleSec ∧ p = n) := by
  unfold db.setterEvents
  split_ifs <;> simp_all <;> omega

theorem mem_setterEvents_lifetime (n : Nat) (opts : db.Options) (p : Nat) (d : Int) :
    Event.setConnMaxLifetime p d ∈ db.setterEvents n opts ↔
      (0 < opts.ConnMaxLifeSec ∧ d = secondsToDuration opts.ConnMaxLifeSec ∧ p = n) := by
  unfold db.setterEvents
  split_ifs <;> simp_all <;> omega

theorem secondsToDuration_exact (sec : Int) (h0 : 0 < sec) (h1 : sec ≤ 9223372036) :
    secondsToDuration sec = sec * 1000000000 := by
  unfold secondsToDuration wrapInt64 time.Second
  omega

theorem mem_db_events_setter (env : Env) (opts : db.Options) (n : Nat)
    (sugar : Option logger.Logger) (ev : Event) (hev : ev.isSetter = true) :
    ev ∈ db.events env opts n sugar ↔
      (env.gormOpen n opts.DSN = none ∧ env.sqlDB n = none ∧ ev ∈ db.setterEvents n opts) := by
  unfold db.events
  rcases ho : env.gormOpen n opts.DSN with _ | e
  · rcases hs : env.sqlDB n with _ | e
    · rcases hp : env.ping n with _ | e <;> rcases sugar with _ | l <;>
        cases ev <;> simp [Event.isSetter] at hev ⊢
    · cases ev <;> simp [Event.isSetter] at hev ⊢
  · cases ev <;> simp [Event.isSetter] at hev ⊢

/-- Once the read block of `InitWithFile` falls through and viper unmarshals `cfg`,
`InitWithFile` stores `cfg` in `config.current`, runs `logger.Init` on its log settings and,
for a non-empty connection string, `db.Init`, whose result it returns. -/
theorem InitWithFile_continues (env : Env) (cfgFile : String) (cfg : config.Config)
    (w : World) (hr : config.readConfig env cfgFile = none)
    (hu : env.unmarshal = Except.ok cfg) :
    (config.InitWithFile env cfgFile w).2.current = some cfg ∧
    (config.InitWithFile env cfgFile w).2.sugar = some (loggerOf env cfg) ∧
    Event.leave Step.loggerInit none ∈ (config.InitWithFile env cfgFile w).2.trace ∧
    (cfg.DB.DSN = "" →
      (config.InitWithFile env cfgFile w).1 = some none ∧
      (config.InitWithFile env cfgFile w).2.DB = w.DB ∧
      (config.InitWithFile env cfgFile w).2.trace =
        w.trace ++ loggerEvents ++ usingFileEvents env) ∧
    (cfg.DB.DSN ≠ "" →
      (config.InitWithFile env cfgFile w).1 =
        db.result env (dbOptionsOf cfg) w.dbInits (some (loggerOf env cfg)) ∧
      Event.enter Step.dbInit ∈ (config.InitWithFile env cfgFile w).2.trace) := by
  by_cases hd : cfg.DB.DSN = ""
  · have hrun : config.InitWithFile env cfgFile w =
        (some none, { w with
          current := some cfg,
          log := some (loggerOf env cfg),
          sugar := some (loggerOf env cfg),
          trace := w.trace ++ loggerEvents ++ usingFileEvents env }) := by
      simp only [config.InitWithFile, run_bind, run_emit, run_pure, hr, hu,
        config.InitFromViper, run_modifyWorld, config.Get, config.deref, run_getWorld,
        logger_Init_run, hd, run_condEmit, ne_eq, not_true_eq_false, if_false,
        loggerEvents, usingFileEvents, loggerOf, logOptionsOf,
        List.append_assoc, List.cons_append, List.nil_append]
    rw [hrun]
    refine ⟨rfl, rfl, ?_, fun _ => ⟨rfl, rfl, rfl⟩, fun h => absurd hd h⟩
    simp [loggerEvents]
  · obtain ⟨r, h0⟩ := db_result_ready env (dbOptionsOf cfg) w.dbInits (loggerOf env cfg)
    have hrun : ∃ tail, config.InitWithFile env cfgFile w =
        (some r, { w with
          current := some cfg,
          log := some (loggerOf env cfg),
          sugar := some (loggerOf env cfg),
          DB := db.handleAfter env (dbOptionsOf cfg) w.dbInits (some (loggerOf env cfg)) w.DB,
          dbInits := w.dbInits + 1,
          trace := w.trace ++ loggerEvents ++
            db.events env (dbOptionsOf cfg) w.dbInits (some (loggerOf env cfg)) ++ tail }) := by
      simp only [dbOptionsOf, loggerOf, logOptionsOf] at h0
      rcases r with _ | e
      · refine ⟨usingFileEvents env, ?_⟩
        simp only [config.InitWithFile, run_bind, run_emit, run_pure, hr, hu,
          config.InitFromViper, run_modifyWorld, config.Get, config.deref, run_getWorld,
          logger_Init_run, hd, run_condEmit, ne_eq, not_false_eq_true, if_true,
          db_Init_run, World.afterDb, h0, db.handleAfter,
          loggerEvents, usingFileEvents, loggerOf, logOptionsOf, dbOptionsOf,
          List.append_assoc, List.cons_append, List.nil_append]
      · refine ⟨[], ?_⟩
        simp only [config.InitWithFile, run_bind, run_emit, run_pure, hr, hu,
          config.InitFromViper, run_modifyWorld, config.Get, config.deref, run_getWorld,
          logger_Init_run, hd, ne_eq, not_false_eq_true, if_true,
          db_Init_run, World.afterDb, h0, db.handleAfter,
          loggerEvents, loggerOf, logOptionsOf, dbOptionsOf,
          List.append_assoc, List.cons_append, List.nil_append, List.append_nil]
    obtain ⟨tail, hrun⟩ := hrun
    rw [hrun]
    refine ⟨rfl, rfl, ?_, fun h => absurd h hd, fun _ => ⟨h0.symm, ?_⟩⟩
    · simp [loggerEvents]
    · simp [db.events]

/-! ## The claims -/

/-- C4: `getZapLevel` is a total function of the lower-cased input: it agrees on `s` and on
`strings.ToLower s` (the Unicode table being one whose outputs are already lower-case), it
maps the eight level names to their levels, and every string whose lower-casing is none of
them to `InfoLevel`; its result type has no error. -/
theorem getZapLevel_case_insensitive_total (table : Char → Char)
    (htable : ∀ c : Char, 127 < c.toNat → unicode.ToLower table (table c) = table c)
    (s : String) :
    logger.getZapLevel table s = logger.getZapLevel table (strings.ToLower table s) ∧
    (logger.getZapLevel table "debug" = zapcore.Level.DebugLevel ∧
     logger.getZapLevel table "info" = zapcore.Level.InfoLevel ∧
     logger.getZapLevel table "warn" = zapcore.Level.WarnLevel ∧
     logger.getZapLevel table "warning" = zapcore.Level.WarnLevel ∧
     logger.getZapLevel table "error" = zapcore.Level.ErrorLevel ∧
     logger.getZapLevel table "dpanic" = zapcore.Level.DPanicLevel ∧
     logger.getZapLevel table "panic" = zapcore.Level.PanicLevel ∧
     logger.getZapLevel table "fatal" = zapcore.Level.FatalLevel) ∧
    (strings.ToLower table s = "debug" →
      logger.getZapLevel table s = zapcore.Level.DebugLevel) ∧
    (strings.ToLower table s = "info" →
      logger.getZapLevel table s = zapcore.Level.InfoLevel) ∧
    (strings.ToLower table s = "warn" →
      logger.getZapLevel table s = zapcore.Level.WarnLevel) ∧
    (strings.ToLower table s = "warning" →
      logger.getZapLevel table s = zapcore.Level.WarnLevel) ∧
    (strings.ToLower table s = "error" →
      logger.getZapLevel table s = zapcore.Level.ErrorLevel) ∧
    (strings.ToLower table s = "dpanic" →
      logger.getZapLevel table s = zapcore.Level.DPanicLevel) ∧
    (strings.ToLower table s = "panic" →
      logger.getZapLevel table s = zapcore.Level.PanicLevel) ∧
    (strings.ToLower table s = "fatal" →
      logger.getZapLevel table s = zapcore.Level.FatalLevel) ∧
    (strings.ToLower table s ∉
        ["debug", "info", "warn", "warning", "error", "dpanic", "panic", "fatal"] →
      logger.getZapLevel table s = zapcore.Level.InfoLevel) := by
  refine ⟨?_, ⟨rfl, rfl, rfl, rfl, rfl, rfl, rfl, rfl⟩, ?_, ?_, ?_, ?_, ?_, ?_, ?_, ?_, ?_⟩
  · simp only [logger.getZapLevel, strings_ToLower_idem table htable s]
  all_goals
    intro h
    simp only [logger.getZapLevel]
  · rw [h]; rfl
  · rw [h]; rfl
  · rw [h]; rfl
  · rw [h]; rfl
  · rw [h]; rfl
  · rw [h]; rfl
  · rw [h]; rfl
  · rw [h]; rfl
  · simp only [List.mem_cons, List.mem_singleton, List.not_mem_nil, or_false, not_or] at h
    obtain ⟨h1, h2, h3, h4, h5, h6, h7, h8⟩ := h
    simp [logger.levelOfLowered, h1, h2, h3, h4, h5, h6, h7, h8]

/-- C4, at the table `sampleTable` and the input `WARNİNG` (with a non-ASCII capital). -/
theorem getZapLevel_case_insensitive_total_witness :
    logger.getZapLevel sampleTable "WARNİNG" = zapcore.Level.WarnLevel ∧
    logger.getZapLevel sampleTable "WARNİNG" =
      logger.getZapLevel sampleTable (strings.ToLower sampleTable "WARNİNG") :=
  ⟨by decide, (getZapLevel_case_insensitive_total sampleTable sampleTable_lowered "WARNİNG").1⟩

/-- C6: the cores `logger.Init` builds are never empty; a rotating-file sink is among them
exactly when `File` is non-empty, a console sink exactly when `Console` is set or `File` is
empty, so with an empty `File` the console sink is there whatever `Console` says. -/
theorem logger_Init_sinks (env : Env) (lc : logger.Options) (w : World) :
    ∃ l : logger.Logger,
      (logger.Init env lc w).2.log = some l ∧ (logger.Init env lc w).2.sugar = some l ∧
      l.cores ≠ [] ∧
      ((∃ c ∈ l.cores, c.sink.isFile = true) ↔ lc.File ≠ "") ∧
      (∀ c ∈ l.cores, c.sink.isFile = true →
        c.sink = logger.Sink.lumberjack lc.File lc.MaxSizeMB lc.MaxBackups lc.MaxAgeDays
          lc.Compress) ∧
      ((∃ c ∈ l.cores, c.sink = logger.Sink.stdout) ↔ (lc.Console = true ∨ lc.File = "")) ∧
      (lc.File = "" → ∀ console : Bool,
        ∃ c ∈ logger.buildCores env.lowerTable { lc with Console := console },
          c.sink = logger.Sink.stdout) := by
  refine ⟨{ cores := logger.buildCores env.lowerTable lc }, ?_, ?_, ?_, ?_, ?_, ?_, ?_⟩
  · rw [logger_Init_run]
  · rw [logger_Init_run]
  · obtain ⟨enc, lvl, h⟩ := buildCores_cases env.lowerTable lc
    simp only [h]
    by_cases hf : lc.File = "" <;> simp [hf]
  · obtain ⟨enc, lvl, h⟩ := buildCores_cases env.lowerTable lc
    simp only [h]
    by_cases hf : lc.File = "" <;> by_cases hc : lc.Console = true <;>
      simp [hf, hc, logger.Sink.isFile]
  · obtain ⟨enc, lvl, h⟩ := buildCores_cases env.lowerTable lc
    simp only [h]
    by_cases hf : lc.File = "" <;> by_cases hc : lc.Console = true <;>
      simp [hf, hc, logger.Sink.isFile]
  · obtain ⟨enc, lvl, h⟩ := buildCores_cases env.lowerTable lc
    simp only [h]
    by_cases hf : lc.File = "" <;> by_cases hc : lc.Console = true <;>
      simp [hf, hc]
  · intro hf console
    obtain ⟨enc, lvl, h⟩ := buildCores_cases env.lowerTable { lc with Console := console }
    simp only [h]
    simp [hf]

/-- C6, for a configuration without log file and with the console switched off. -/
theorem logger_Init_sinks_witness :
    ∃ c ∈ logger.buildCores sampleTable
        { logOptionsOf (sampleConfig "" "") with Console := false },
      c.sink = logger.Sink.stdout :=
  Exists.elim
    (logger_Init_sinks (happyEnv (sampleConfig "" "")) (logOptionsOf (sampleConfig "" ""))
      World.fresh)
    (fun _ h => h.2.2.2.2.2.2 rfl false)

/-- C5, as stated, fails in two ways. When `gorm.Open` fails, `db.Init` returns before the
pool configuration and no setter is called although `MaxOpenConns` is 10. And with
`ConnMaxLifeSec = 9223372037` the product `time.Duration(sec) * time.Second` overflows
`int64`: `SetConnMaxLifetime` is called with a negative duration, not with 9223372037
seconds. -/
theorem pool_setters_need_open_pool_and_small_timeouts :
    sampleDbOptions.MaxOpenConns = 10 ∧
    (db.Init (refusedEnv (sampleConfig "" "")) sampleDbOptions World.fresh).1 =
      some (some (GoError.other "dial tcp 127.0.0.1:3306: connect: connection refused")) ∧
    (db.Init (refusedEnv (sampleConfig "" "")) sampleDbOptions World.fresh).2.trace.filter
      Event.isSetter = [] ∧
    (db.Init (happyEnv (sampleConfig "" "")) longLifeDbOptions World.fresh).2.trace.filter
      Event.isSetter = [Event.setConnMaxLifetime 0 (-9223372036709551616)] ∧
    (-9223372036709551616 : Int) ≠ 9223372037 * 1000000000 := by
  decide

/-- C5, amended: when `db.Init` has opened the pool (`gorm.Open` and `gdb.DB()` returned no
error), each of the four setters is called exactly when its own limit is strictly positive,
on the pool just opened; the two count setters get the limit itself, the two timeout
setters get `time.Duration(sec) * time.Second` computed in `int64`, which is `sec` seconds
for every `sec` up to 9223372036. Whether a setter is called depends on its own limit alone.
When `gorm.Open` or `gdb.DB()` fails no setter is called, and a zero or negative limit never
produces a call, whatever the libraries answer. -/
theorem db_Init_pool_setters (env : Env) (opts : db.Options) (w : World) :
    ∃ evs, (db.Init env opts w).2.trace = w.trace ++ evs ∧
      (env.gormOpen w.dbInits opts.DSN = none → env.sqlDB w.dbInits = none →
        (∀ p v, Event.setMaxOpenConns p v ∈ evs ↔
          (0 < opts.MaxOpenConns ∧ v = opts.MaxOpenConns ∧ p = w.dbInits)) ∧
        (∀ p v, Event.setMaxIdleConns p v ∈ evs ↔
          (0 < opts.MaxIdleConns ∧ v = opts.MaxIdleConns ∧ p = w.dbInits)) ∧
        (∀ p d, Event.setConnMaxIdleTime p d ∈ evs ↔
          (0 < opts.ConnMaxIdleSec ∧ d = secondsToDuration opts.ConnMaxIdleSec ∧
            p = w.dbInits)) ∧
        (∀ p d, Event.setConnMaxLifetime p d ∈ evs ↔
          (0 < opts.ConnMaxLifeSec ∧ d = secondsToDuration opts.ConnMaxLifeSec ∧
            p = w.dbInits))) ∧
      ((env.gormOpen w.dbInits opts.DSN ≠ none ∨ env.sqlDB w.dbInits ≠ none) →
        ∀ ev ∈ evs, ev.isSetter = false) ∧
      (opts.MaxOpenConns ≤ 0 → ∀ p v, Event.setMaxOpenConns p v ∉ evs) ∧
      (opts.MaxIdleConns ≤ 0 → ∀ p v, Event.setMaxIdleConns p v ∉ evs) ∧
      (opts.ConnMaxIdleSec ≤ 0 → ∀ p d, Event.setConnMaxIdleTime p d ∉ evs) ∧
      (opts.ConnMaxLifeSec ≤ 0 → ∀ p d, Event.setConnMaxLifetime p d ∉ evs) ∧
      (∀ sec : Int, 0 < sec → sec ≤ 9223372036 →
        secondsToDuration sec = sec * 1000000000) := by
  refine ⟨db.events env opts w.dbInits w.sugar, ?_, ?_, ?_, ?_, ?_, ?_, ?_,
    secondsToDuration_exact⟩
  · rw [db_Init_run]
    rfl
  · intro ho hs
    refine ⟨?_, ?_, ?_, ?_⟩ <;> intro p v
    · rw [mem_db_events_setter env opts _ _ (Event.setMaxOpenConns p v) rfl, mem_setterEvents_open]
      simp [ho, hs]
    · rw [mem_db_events_setter env opts _ _ (Event.setMaxIdleConns p v) rfl, mem_setterEvents_idle]
      simp [ho, hs]
    · rw [mem_db_events_setter env opts _ _ (Event.setConnMaxIdleTime p v) rfl, mem_setterEvents_idleTime]
      simp [ho, hs]
    · rw [mem_db_events_setter env opts _ _ (Event.setConnMaxLifetime p v) rfl, mem_setterEvents_lifetime]
      simp [ho, hs]
  · intro hfail ev hev
    by_contra hset
    have hset2 : ev.isSetter = true := by simpa using hset
    obtain ⟨ho, hs, _⟩ := (mem_db_events_setter env opts _ _ ev hset2).mp hev
    rcases hfail with h | h
    · exact h ho
    · exact h hs
  · intro hle p v hmem
    rw [mem_db_events_setter env opts _ _ (Event.setMaxOpenConns p v) rfl, mem_setterEvents_open] at hmem
    omega
  · intro hle p v hmem
    rw [mem_db_events_setter env opts _ _ (Event.setMaxIdleConns p v) rfl, mem_setterEvents_idle] at hmem
    omega
  · intro hle p v hmem
    rw [mem_db_events_setter env opts _ _ (Event.setConnMaxIdleTime p v) rfl, mem_setterEvents_idleTime] at hmem
    omega
  · intro hle p v hmem
    rw [mem_db_events_setter env opts _ _ (Event.setConnMaxLifetime p v) rfl, mem_setterEvents_lifetime] at hmem
    omega

/-- C5 amended, for `sampleDbOptions` in a run where the pool opens: the two positive limits are
set, the other two are not. -/
theorem db_Init_pool_setters_witness :
    ∃ evs, (db.Init (happyEnv (sampleConfig "" "")) sampleDbOptions World.fresh).2.trace =
        World.fresh.trace ++ evs ∧
      Event.setMaxOpenConns 0 10 ∈ evs ∧
      Event.setConnMaxIdleTime 0 60000000000 ∈ evs ∧
      (∀ p v, Event.setMaxIdleConns p v ∉ evs) ∧
      (∀ p d, Event.setConnMaxLifetime p d ∉ evs) := by
  obtain ⟨evs, h, hpos, _, _, hidle, _, hlife, _⟩ :=
    db_Init_pool_setters (happyEnv (sampleConfig "" "")) sampleDbOptions World.fresh
  obtain ⟨hopen, _, hit, _⟩ := hpos rfl rfl
  exact ⟨evs, h, (hopen 0 10).mpr (by decide), (hit 0 60000000000).mpr (by decide),
    hidle (by decide), hlife (by decide)⟩

/-- C8: with an explicit path every read error makes `InitWithFile` return a non-nil error
(the read error wrapped with the path) at once. Without a path a not-found error is
tolerated and initialisation continues: `InitWithFile` runs exactly as it does when the
read succeeds, that is `InitFromViper` runs, an unmarshal error is returned, and otherwise
the unmarshalled snapshot (defaults and environment overrides) is stored in
`config.current`, the logger is initialised from it and the result is nil, or that of
`db.Init` when a connection string is configured. Any other read error is returned as it
is, with nothing initialised. -/
theorem InitWithFile_read_errors (env : Env) (w : World) :
    (∀ cfgFile e, cfgFile ≠ "" → env.readInConfig cfgFile = some e →
      config.InitWithFile env cfgFile w =
        (some (some (GoError.wrapped ("failed to read config file " ++ cfgFile ++ ": ") e)),
          w)) ∧
    (∀ e, env.readInConfig "" = some e →
      (e.isNotExist = true ∨ e.asConfigFileNotFound = true) →
      config.InitWithFile env "" w =
        config.InitWithFile { env with readInConfig := fun _ => none } "" w ∧
      (∀ e2, env.unmarshal = Except.error e2 →
        config.InitWithFile env "" w =
          (some (some (GoError.wrapped "failed to unmarshal config: " e2)), w)) ∧
      (∀ cfg, env.unmarshal = Except.ok cfg →
        (config.InitWithFile env "" w).2.current = some cfg ∧
        (config.InitWithFile env "" w).2.sugar = some (loggerOf env cfg) ∧
        Event.leave Step.loggerInit none ∈ (config.InitWithFile env "" w).2.trace ∧
        (cfg.DB.DSN = "" →
          (config.InitWithFile env "" w).1 = some none ∧
          (config.InitWithFile env "" w).2.DB = w.DB ∧
          (config.InitWithFile env "" w).2.trace =
            w.trace ++ loggerEvents ++ usingFileEvents env) ∧
        (cfg.DB.DSN ≠ "" →
          (config.InitWithFile env "" w).1 =
            db.result env (dbOptionsOf cfg) w.dbInits (some (loggerOf env cfg)) ∧
          Event.enter Step.dbInit ∈ (config.InitWithFile env "" w).2.trace))) ∧
    (∀ e, env.readInConfig "" = some e →
      e.isNotExist = false → e.asConfigFileNotFound = false →
      config.InitWithFile env "" w = (some (some e), w)) := by
  refine ⟨?_, ?_, ?_⟩
  · intro cfgFile e hne he
    simp only [config.InitWithFile, config.readConfig, he, hne, ne_eq, not_false_eq_true,
      if_true, run_pure]
  · intro e he hnf
    have h1 : config.readConfig env "" = none := by
      rcases hnf with h | h <;> simp [config.readConfig, he, h]
    have h2 : config.readConfig { env with readInConfig := fun _ => none } "" = none := rfl
    refine ⟨?_, ?_, ?_⟩
    · simp only [config.InitWithFile, h1, h2]
      rfl
    · intro e2 hu
      simp only [config.InitWithFile, h1, hu, config.InitFromViper, run_bind, run_pure]
    · intro cfg hu
      exact InitWithFile_continues env "" cfg w h1 hu
  · intro e he hn1 hn2
    simp [config.InitWithFile, config.readConfig, he, hn1, hn2, run_pure]

/-- C8, at three runs from a fresh process: an explicit path that does not exist; no path
and no file found, where the snapshot is stored, the logger set and nil returned; no path
and a malformed file, where nothing is stored. -/
theorem InitWithFile_read_errors_witness :
    (config.InitWithFile (readErrorEnv (GoError.notExist "open ez.yaml: no such file"))
        "ez.yaml" World.fresh) =
      (some (some (GoError.wrapped "failed to read config file ez.yaml: "
        (GoError.notExist "open ez.yaml: no such file"))), World.fresh) ∧
    ((config.InitWithFile (readErrorEnv (GoError.configFileNotFound "Config File Not Found"))
        "" World.fresh).2.current = some (sampleConfig "" "") ∧
     (config.InitWithFile (readErrorEnv (GoError.configFileNotFound "Config File Not Found"))
        "" World.fresh).2.sugar ≠ none ∧
     (config.InitWithFile (readErrorEnv (GoError.configFileNotFound "Config File Not Found"))
        "" World.fresh).1 = some none) ∧
    (config.InitWithFile (readErrorEnv (GoError.other "While parsing config: yaml: line 3"))
        "" World.fresh) =
      (some (some (GoError.other "While parsing config: yaml: line 3")), World.fresh) :=
  ⟨(InitWithFile_read_errors
      (readErrorEnv (GoError.notExist "open ez.yaml: no such file")) World.fresh).1
      "ez.yaml" _ (by decide) rfl,
   ⟨(((InitWithFile_read_errors
        (readErrorEnv (GoError.configFileNotFound "Config File Not Found")) World.fresh).2.1
        _ rfl (Or.inr rfl)).2.2 (sampleConfig "" "") rfl).1,
    by
      rw [(((InitWithFile_read_errors
        (readErrorEnv (GoError.configFileNotFound "Config File Not Found")) World.fresh).2.1
        _ rfl (Or.inr rfl)).2.2 (sampleConfig "" "") rfl).2.1]
      simp,
    ((((InitWithFile_read_errors
        (readErrorEnv (GoError.configFileNotFound "Config File Not Found")) World.fresh).2.1
        _ rfl (Or.inr rfl)).2.2 (sampleConfig "" "") rfl).2.2.2.1 rfl).1⟩,
   (InitWithFile_read_errors
      (readErrorEnv (GoError.other "While parsing config: yaml: line 3")) World.fresh).2.2
      _ rfl rfl rfl⟩

/-- C1 fails on the code: in a run where every call succeeds, Bootstrap returns nil and
`logger.Init` has been entered twice, first inside `config.Init`, before that step has
returned, and then again from `PersistentPreRunE` itself; so the log step does not run at
its own position only and is invoked a second time. -/
theorem bootstrap_enters_logger_twice :
    (cmd.PersistentPreRunE (happyEnv (sampleConfig "" "")) "" World.fresh).1 = some none ∧
    (cmd.PersistentPreRunE (happyEnv (sampleConfig "" "")) "" World.fresh).2.trace.count
      (Event.enter Step.loggerInit) = 2 ∧
    (cmd.PersistentPreRunE (happyEnv (sampleConfig "" "")) "" World.fresh).2.trace.filterMap
      Event.toMark =
        [Mark.enter Step.configInit, Mark.enter Step.loggerInit,
         Mark.leave Step.loggerInit none, Mark.leave Step.configInit none,
         Mark.enter Step.loggerInit, Mark.leave Step.loggerInit none,
         Mark.enter Step.dbInit, Mark.leave Step.dbInit none] := by
  decide

/-- C2 fails on the code: with an empty `db.dsn` and a database server that refuses
connections, configuration loading and log initialisation succeed, yet `PersistentPreRunE`
calls `db.Init` with the empty connection string and Bootstrap returns the connection error
(exit code 1); and where that call succeeds, `db.DB` is set. -/
theorem empty_dsn_still_connects :
    (cmd.PersistentPreRunE (refusedEnv (sampleConfig "" "")) "" World.fresh).1 =
      some (some (GoError.other "dial tcp 127.0.0.1:3306: connect: connection refused")) ∧
    topCalls (cmd.PersistentPreRunE (refusedEnv (sampleConfig "" "")) "" World.fresh).2.trace =
      [(Step.configInit, none), (Step.loggerInit, none),
       (Step.dbInit,
         some (GoError.other "dial tcp 127.0.0.1:3306: connect: connection refused"))] ∧
    Event.gormOpen 0 "" ∈
      (cmd.PersistentPreRunE (refusedEnv (sampleConfig "" "")) "" World.fresh).2.trace ∧
    main (refusedEnv (sampleConfig "" "")) "" = 1 ∧
    (cmd.PersistentPreRunE (happyEnv (sampleConfig "" "")) "" World.fresh).2.DB = some 0 := by
  decide

/-- C3 fails on the code: in a successful Bootstrap with a non-empty `db.dsn`, `db.Init` is
entered twice (inside `config.Init` and from `PersistentPreRunE`), two pools are opened,
each limit is set once on each of them, and `db.DB` is assigned twice, ending on the second
pool. -/
theorem nonempty_dsn_connects_twice :
    (cmd.PersistentPreRunE (happyEnv (sampleConfig "" "u:p@tcp(db)/ez")) ""
      World.fresh).1 = some none ∧
    (cmd.PersistentPreRunE (happyEnv (sampleConfig "" "u:p@tcp(db)/ez")) ""
      World.fresh).2.trace.count (Event.enter Step.dbInit) = 2 ∧
    (cmd.PersistentPreRunE (happyEnv (sampleConfig "" "u:p@tcp(db)/ez")) ""
      World.fresh).2.trace.filter Event.isAssignDB = [Event.assignDB 0, Event.assignDB 1] ∧
    (cmd.PersistentPreRunE (happyEnv (sampleConfig "" "u:p@tcp(db)/ez")) ""
      World.fresh).2.trace.filter Event.isSetter =
        [Event.setMaxOpenConns 0 10, Event.setConnMaxIdleTime 0 60000000000,
         Event.setMaxOpenConns 1 10, Event.setConnMaxIdleTime 1 60000000000] ∧
    (cmd.PersistentPreRunE (happyEnv (sampleConfig "" "u:p@tcp(db)/ez")) ""
      World.fresh).2.DB = some 1 := by
  decide

/-- C7, as stated, fails: with a log file configured that cannot be opened, `logger.Init`
returns nil and Bootstrap goes on to the data-store step and returns nil. -/
theorem unopenable_log_file_is_not_fatal :
    (sampleConfig "/nonexistent/ezchat.log" "").Log.File ≠ "" ∧
    (unwritableLogEnv (sampleConfig "/nonexistent/ezchat.log" "")).logFileOpenable
      "/nonexistent/ezchat.log" = false ∧
    (logger.Init (unwritableLogEnv (sampleConfig "/nonexistent/ezchat.log" ""))
      (logOptionsOf (sampleConfig "/nonexistent/ezchat.log" "")) World.fresh).1 = some none ∧
    topCalls (cmd.PersistentPreRunE
      (unwritableLogEnv (sampleConfig "/nonexistent/ezchat.log" "")) "" World.fresh).2.trace =
      [(Step.configInit, none), (Step.loggerInit, none), (Step.dbInit, none)] ∧
    (cmd.PersistentPreRunE
      (unwritableLogEnv (sampleConfig "/nonexistent/ezchat.log" "")) "" World.fresh).1 =
      some none := by
  decide

/-- C7, amended: `logger.Init` never returns an error, whether or not the configured log
file can be opened: it returns nil and assigns a logger that has the file sink whenever
`File` is non-empty (the rotating writer opens the file on its first write). Bootstrap
therefore never stops at the log step: it stops after `config.Init` or goes on to
`db.Init`. -/
theorem logger_Init_never_fails (env : Env) (cfgFile : String) :
    (∀ (lc : logger.Options) (w : World),
      (logger.Init env lc w).1 = some none ∧
      ∃ l, (logger.Init env lc w).2.sugar = some l ∧
        (lc.File ≠ "" → ∃ c ∈ l.cores, c.sink =
          logger.Sink.lumberjack lc.File lc.MaxSizeMB lc.MaxBackups lc.MaxAgeDays
            lc.Compress)) ∧
    ((∃ e, topCalls (cmd.PersistentPreRunE env cfgFile World.fresh).2.trace =
        [(Step.configInit, some e)]) ∨
     (∃ r, topCalls (cmd.PersistentPreRunE env cfgFile World.fresh).2.trace =
        [(Step.configInit, none), (Step.loggerInit, none), (Step.dbInit, r)])) := by
  refine ⟨?_, ?_⟩
  · intro lc w
    rw [logger_Init_run]
    refine ⟨rfl, _, rfl, ?_⟩
    intro hf
    obtain ⟨enc, lvl, h⟩ := buildCores_cases env.lowerTable lc
    simp only [h]
    simp [hf]
  · rcases boot_topCalls env cfgFile with ⟨e, _, h2⟩ | ⟨r, _, h2⟩
    · exact Or.inl ⟨e, h2⟩
    · exact Or.inr ⟨r, h2⟩

/-- C7 amended, for a log file that cannot be opened. -/
theorem logger_Init_never_fails_witness :
    ∃ l, (logger.Init (unwritableLogEnv (sampleConfig "/nonexistent/ezchat.log" ""))
        (logOptionsOf (sampleConfig "/nonexistent/ezchat.log" "")) World.fresh).2.sugar =
          some l ∧
      ∃ c ∈ l.cores, c.sink = logger.Sink.lumberjack "/nonexistent/ezchat.log" 10 3 7 false :=
  Exists.elim
    ((logger_Init_never_fails (unwritableLogEnv (sampleConfig "/nonexistent/ezchat.log" ""))
      "").1 (logOptionsOf (sampleConfig "/nonexistent/ezchat.log" "")) World.fresh).2
    (fun l h => ⟨l, h.1, h.2 (by decide)⟩)

/-- C9: the exit code is 1 exactly when `cmd.Execute` returns a non-nil error and 0
otherwise (from a fresh process it always returns). The serve step, run with configuration
and logger in place, calls `Shutdown` with a 5-second timeout and returns exactly what
`Shutdown` returns. So a Bootstrap error gives exit code 1, and after a nil Bootstrap a
`Shutdown` error gives 1 and a nil `Shutdown` gives 0. -/
theorem exit_code_follows_Execute (env : Env) (cfgFile : String) :
    (main env cfgFile = 1 ↔
      ∃ e, (cmd.Execute env cfgFile World.fresh).1 = some (some e)) ∧
    ((¬ ∃ e, (cmd.Execute env cfgFile World.fresh).1 = some (some e)) →
      main env cfgFile = 0) ∧
    (∀ (w : World) (cfg : config.Config) (l : logger.Logger),
      w.current = some cfg → w.sugar = some l →
        (cmd.RunE env w).1 = some (env.shutdown 5000000000) ∧
        Event.shutdown 5000000000 ∈ (cmd.RunE env w).2.trace) ∧
    (∀ e, (cmd.PersistentPreRunE env cfgFile World.fresh).1 = some (some e) →
      (cmd.Execute env cfgFile World.fresh).1 = some (some e) ∧ main env cfgFile = 1) ∧
    ((cmd.PersistentPreRunE env cfgFile World.fresh).1 = some none →
      (cmd.Execute env cfgFile World.fresh).1 = some (env.shutdown 5000000000) ∧
      (∀ e, env.shutdown 5000000000 = some e → main env cfgFile = 1) ∧
      (env.shutdown 5000000000 = none → main env cfgFile = 0)) := by
  have h5 : (5 : Int) * time.Second = 5000000000 := by decide
  obtain ⟨⟨r, hr, hcase⟩, _⟩ := Execute_fresh env cfgFile
  rw [h5] at hcase
  have hmain0 : r = none → main env cfgFile = 0 := by
    intro h
    unfold main
    rw [hr, h]
  have hmain1 : ∀ e, r = some e → main env cfgFile = 1 := by
    intro e h
    unfold main
    rw [hr, h]
  refine ⟨?_, ?_, ?_, ?_, ?_⟩
  · rw [hr]
    constructor
    · intro h1
      cases r with
      | none => rw [hmain0 rfl] at h1; exact absurd h1 (by decide)
      | some e => exact ⟨e, rfl⟩
    · rintro ⟨e, he⟩
      exact hmain1 e (by simpa using he)
  · intro hne
    rw [hr] at hne
    cases r with
    | none => exact hmain0 rfl
    | some e => exact absurd ⟨e, rfl⟩ hne
  · intro w cfg l hc hs
    rw [RunE_run env w cfg l hc hs, h5]
    refine ⟨rfl, ?_⟩
    simp [serveEvents, h5]
  · intro e he
    rcases hcase with ⟨e2, hb, hr2⟩ | ⟨hb, _, _⟩
    · rw [he] at hb
      have hee : e = e2 := by simpa using hb
      subst hee
      exact ⟨by rw [hr, hr2], hmain1 e hr2⟩
    · rw [he] at hb
      simp at hb
  · intro hnil
    rcases hcase with ⟨e2, hb, _⟩ | ⟨_, hr2, _⟩
    · rw [hnil] at hb
      simp at hb
    · refine ⟨by rw [hr, hr2], ?_, ?_⟩
      · intro e he
        exact hmain1 e (by rw [hr2, he])
      · intro hn
        exact hmain0 (by rw [hr2, hn])

/-- C9, at three runs: a clean run and shutdown exits with 0, a shutdown that times out
exits with 1, a Bootstrap that fails exits with 1. -/
theorem exit_code_follows_Execute_witness :
    main (happyEnv (sampleConfig "" "u:p@tcp(db)/ez")) "" = 0 ∧
    main (slowDrainEnv (sampleConfig "" "u:p@tcp(db)/ez")) "" = 1 ∧
    main (readErrorEnv (GoError.other "While parsing config: yaml: line 3")) "" = 1 :=
  ⟨((exit_code_follows_Execute (happyEnv (sampleConfig "" "u:p@tcp(db)/ez")) "").2.2.2.2
      (by decide)).2.2 rfl,
   ((exit_code_follows_Execute (slowDrainEnv (sampleConfig "" "u:p@tcp(db)/ez")) "").2.2.2.2
      (by decide)).2.1 _ rfl,
   ((exit_code_follows_Execute
      (readErrorEnv (GoError.other "While parsing config: yaml: line 3")) "").2.2.2.1
      (GoError.other "While parsing config: yaml: line 3") (by decide)).2⟩

/-- C10: `logger.Init` always returns with a non-nil `sugar`; from a fresh process
`cmd.Execute` (Bootstrap, then the serve step) never panics, so no nil logger is
dereferenced; and every log call through `logger.S()` in its trace, those of
`PersistentPreRunE`, of `RunE` and of the ping-failure branch of `db.Init`, comes after a
return of `logger.Init`. -/
theorem logger_set_before_use (env : Env) (cfgFile : String) :
    (∀ (lc : logger.Options) (w : World),
      (logger.Init env lc w).1 = some none ∧ (logger.Init env lc w).2.sugar ≠ none) ∧
    (cmd.PersistentPreRunE env cfgFile World.fresh).1 ≠ none ∧
    (cmd.Execute env cfgFile World.fresh).1 ≠ none ∧
    (∀ pre msg post,
      (cmd.Execute env cfgFile World.fresh).2.trace = pre ++ Event.sugarUse msg :: post →
        Event.leave Step.loggerInit none ∈ pre) := by
  obtain ⟨⟨r, hr, _⟩, htrace⟩ := Execute_fresh env cfgFile
  refine ⟨?_, ?_, ?_, htrace⟩
  · intro lc w
    rw [logger_Init_run]
    exact ⟨rfl, by simp⟩
  · rcases boot_shape env cfgFile with ⟨e, h⟩ | ⟨r, cfg, handle, n, rest, h⟩ <;>
      rw [h] <;> simp
  · rw [hr]
    simp

/-- C10, at a run in which the database ping fails inside `config.Init`: the ping-failure
log call of `db.Init` comes after the first `logger.Init` has returned. -/
theorem logger_set_before_use_witness :
    Event.leave Step.loggerInit none ∈
      [Event.enter Step.configInit, Event.enter Step.loggerInit, Event.assignSugar,
       Event.leave Step.loggerInit none, Event.enter Step.dbInit,
       Event.gormOpen 0 "u:p@tcp(db)/ez", Event.setMaxOpenConns 0 10,
       Event.setConnMaxIdleTime 0 60000000000, Event.ping 0] :=
  (logger_set_before_use
    { happyEnv (sampleConfig "" "u:p@tcp(db)/ez") with
      ping := fun _ => some (GoError.other "driver: bad connection") } "").2.2.2
    _ "failed to ping database"
    [Event.leave Step.dbInit (some (GoError.other "driver: bad connection")),
     Event.leave Step.configInit (some (GoError.other "driver: bad connection")),
     Event.stdout "failed to initialize config"]
    (by decide)

end EzChat
